import Mathlib

/-!
Shallow embedding of the influxsnmp collector (Go sources `influx.go` and
`main.go`) together with proofs about its batching sender, flush loop,
retry-until-success delivery, construction-time checks, poller startup
validation and statistics registry.

The external InfluxDB client library and the SNMP library are modelled at
their interfaces (ping/query/write outcomes are oracle inputs); everything
that the repository's own code decides is translated statement by statement
from the Go source.
-/

namespace Influxsnmp

/-! ### Points and fields

The Go code builds points with `client.NewPoint(key, tags, fields, ts)`
(`influx.go` line 156), where `fields` is a `map[string]interface{}`.
The external client accepts only field values representable in the store's
wire format and returns an error otherwise; `FieldValue.unsupported` marks
a malformed value of that kind. Timestamps are modelled as naturals.
-/

/-- Field value handed to the store client. `unsupported` stands for a Go
value whose dynamic type the external client rejects when constructing a
point. -/
inductive FieldValue where
  | intVal (i : Int)
  | strVal (s : String)
  | boolVal (b : Bool)
  | unsupported (tyName : String)
deriving DecidableEq, Repr

/-- An immutable sample: series key, tags, fields, timestamp
(Go `*client.Point`). -/
structure Point where
  key : String
  tags : List (String × String)
  fields : List (String × FieldValue)
  ts : Nat
deriving DecidableEq, Repr

/-- Whether the external client accepts this field value. -/
def validField : FieldValue → Bool
  | .unsupported _ => false
  | _ => true

/-- Modelled from the spec: `client.NewPoint` of the external InfluxDB
client library (not part of this repository), which fails exactly when a
field value is malformed for the store's wire format. -/
def newPoint (key : String) (tags : List (String × String))
    (fields : List (String × FieldValue)) (ts : Nat) : Except String Point :=
  if fields.all (fun kv => validField kv.2) then
    .ok ⟨key, tags, fields, ts⟩
  else
    .error "unsupported field value in point"

/-! ### Sender construction (`influx.go` lines 52-113)

`InfluxConfig` is the struct of `influx.go` (host, port, db, user,
password, retention; the batch config is carried separately by the
external client). `Connect` builds an HTTP client and pings it with the
in-code constant timeout `time.Second * 10` (`influx.go` line 66).
`StoreEnv` is the oracle for the external client's outcomes.
-/

/-- Connection requirements (`influx.go` `InfluxConfig`). Note the struct
has no timeout field of any kind. -/
structure InfluxConfig where
  Host : String
  Port : Int
  DB : String
  Username : String
  Password : String
  Retention : String
deriving DecidableEq, Repr

/-- Oracle for the external InfluxDB client: whether `NewHTTPClient`
succeeds, whether the `Ping` probe succeeds within its timeout, the
response of the `show databases` query (or its error), and whether
`NewBatchPoints` succeeds. The response nesting mirrors
`resp.Results / r.Series / s.Values / v` iterated in `influx.go`
lines 93-102. -/
structure StoreEnv where
  newClientOk : Bool
  pingOk : Bool
  queryResult : Except String (List (List (List (List String))))
  newBatchOk : Bool

/-- Timeout, in seconds, that `Connect` passes to the liveness probe:
`conn.Ping(time.Second * 10)` (`influx.go` line 66). It is a literal in
the code; no configuration field reaches it. -/
def connectPingTimeoutSeconds (_cfg : InfluxConfig) : Nat := 10

/-- `Connect` (`influx.go` lines 52-68): succeeds exactly when the HTTP
client is created and the 10-second ping probe succeeds. -/
def Connect (_cfg : InfluxConfig) (env : StoreEnv) : Bool :=
  env.newClientOk && env.pingOk

/-- The `exists` closure of `NewSender` (`influx.go` lines 86-105): a
query error yields `false`; otherwise every value of every row of every
series of every result is compared against the configured database
name. -/
def databaseExists (db : String) (env : StoreEnv) : Bool :=
  match env.queryResult with
  | .error _ => false
  | .ok results =>
      results.any fun r => r.any fun s => s.any fun v => v.any fun x => x == db

/-- The data a successful `NewSender` call fixes for the lifetime of the
sender: the capacity of the point channel (`make(chan *client.Point,
queueSize)`, line 77), the batch threshold compared against the point
counter (`count < batchSize`, line 129), and the tick period in seconds
(`time.Duration(period) * time.Second`, line 116). -/
structure SenderModel where
  queueCap : Int
  batchThreshold : Int
  periodSeconds : Int
deriving DecidableEq, Repr

/-- `NewSender` construction path (`influx.go` lines 70-113): empty
database name, connection failure, missing database and batch-point
construction failure each abort with a descriptive error, in that order;
otherwise the sender is built from the three size parameters exactly as
given. -/
def NewSender (cfg : InfluxConfig) (env : StoreEnv)
    (batchSize queueSize period : Int) : Except String SenderModel :=
  if cfg.DB.length == 0 then
    .error "no database specified"
  else if !(Connect cfg env) then
    .error ("failed connecting to: " ++ cfg.Host)
  else if !(databaseExists cfg.DB env) then
    .error ("database " ++ cfg.DB ++ " does not exist")
  else if !env.newBatchOk then
    .error "batchpoints error"
  else
    .ok ⟨queueSize, batchSize, period⟩

/-! ### The flush loop (`influx.go` lines 115-152)

One iteration of the `select` statement. The three channels are the
ticker, the point channel and the manual `flush` channel; the latter is
fed only by `SenderFlush` (`influx.go` lines 46-50), which no code in the
repository calls, so only tick and point events can occur at run time. -/

/-- A channel event the flush loop's `select` can receive. -/
inductive Event where
  | tick
  | point (p : Point)
  | flushSig
deriving DecidableEq, Repr

/-- Loop-local state of the flush goroutine: the current batch `bp` and
the point counter `count`. -/
structure LoopState where
  bp : List Point
  count : Nat
deriving DecidableEq, Repr

/-- What one `select` iteration decides: `waitAgain` is the `continue`
back to the `select`, `flushNow` falls through to the write loop. -/
inductive StepResult where
  | waitAgain (s : LoopState)
  | flushNow (s : LoopState)
deriving DecidableEq, Repr

/-- One iteration of the `select` (`influx.go` lines 120-135): a tick
with an empty batch continues; a point is appended and the counter
incremented, continuing while `count < batchSize`; a manual flush signal
falls through to the write. -/
def selectStep (batchSize : Int) (s : LoopState) : Event → StepResult
  | .tick =>
      if s.bp.length == 0 then .waitAgain s else .flushNow s
  | .point p =>
      let s' : LoopState := ⟨s.bp ++ [p], s.count + 1⟩
      if (s'.count : Int) < batchSize then .waitAgain s' else .flushNow s'
  | .flushSig => .flushNow s

/-- Whether the iteration decided to flush. -/
def isFlush : StepResult → Bool
  | .waitAgain _ => false
  | .flushNow _ => true

/-- Observable record of one run of the write loop: the batch content
passed to each `conn.Write` call in order, the reported write errors in
order, the cool-down sleeps in seconds in order, and the batch and
counter the loop leaves behind after the successful write. -/
structure FlushOutcome where
  attempts : List (List Point)
  reports : List String
  sleeps : List Nat
  bp : List Point
  count : Nat
deriving DecidableEq, Repr

/-- The write loop (`influx.go` lines 137-150) driven by an oracle list of
`conn.Write` outcomes (`some e` = failure with error `e`, `none` =
success): each failure is reported and followed by a 30-second sleep,
and the very same batch is retried; the first success replaces the batch
with a fresh empty one and resets the counter to zero. `none` as overall
result means the oracle ran out before any success, i.e. the loop is
still retrying. -/
def writeLoop (bp : List Point) : List (Option String) → Option FlushOutcome
  | [] => none
  | none :: _ => some ⟨[bp], [], [], [], 0⟩
  | some e :: rest =>
      match writeLoop bp rest with
      | none => none
      | some r => some ⟨bp :: r.attempts, e :: r.reports, 30 :: r.sleeps, r.bp, r.count⟩

/-! ### Submit (`influx.go` lines 155-162) -/

/-- Result of one call of the returned `Sender` closure: a point
construction error returned to the caller, a completed enqueue, or a
blocked channel send (queue full — the caller stalls holding the
point). -/
inductive SubmitResult where
  | fail (e : String)
  | enqueued (q : List Point)
  | blocked (p : Point)
deriving DecidableEq, Repr

/-- The `Sender` closure (`influx.go` lines 155-162): build the point with
`newPoint`; on error return it; otherwise send on the `pts` channel — the
send completes if the buffered channel has room, else it blocks the
caller (it never errors and never drops the point). -/
def submit (cap : Nat) (q : List Point) (key : String)
    (tags : List (String × String)) (fields : List (String × FieldValue))
    (ts : Nat) : SubmitResult :=
  match newPoint key tags fields ts with
  | .error e => .fail e
  | .ok pt => if q.length < cap then .enqueued (q ++ [pt]) else .blocked pt

/-- The queue as left behind by one `submit` call: unchanged unless the
enqueue completed. -/
def queueAfterSubmit (cap : Nat) (q : List Point) (key : String)
    (tags : List (String × String)) (fields : List (String × FieldValue))
    (ts : Nat) : List Point :=
  match submit cap q key tags fields ts with
  | .enqueued q' => q'
  | _ => q

/-! ### Whole-sender transition system (`influx.go` lines 70-162)

Joint behaviour of the producers, the point channel, the flush goroutine
and the store: accepted submits append to the bounded queue; while the
goroutine is at the `select` it can take a queued point into the batch or
react to a tick; while it is inside the write loop (`flushing`) only
write outcomes affect the state. Write failures leave everything
untouched; a success moves the batch, whole, to `written`. -/

/-- A system event: a completed channel send by a producer, the goroutine
receiving a point from the channel, a ticker fire, and the outcome of one
`conn.Write` attempt. -/
inductive SysEvent where
  | submit (p : Point)
  | recv
  | tick
  | writeOk
  | writeFail
deriving DecidableEq, Repr

/-- Whether the event is a producer submit. -/
def SysEvent.isSubmit : SysEvent → Bool
  | .submit _ => true
  | _ => false

/-- Global state: the channel contents (FIFO), the current batch and
counter of the flush goroutine, the successfully written batches in
order, and whether the goroutine is inside the write loop. -/
structure SysState where
  queue : List Point
  bp : List Point
  count : Nat
  written : List (List Point)
  flushing : Bool
deriving DecidableEq, Repr

/-- Initial state: empty channel, fresh batch, zero counter
(`influx.go` lines 77, 110, 118). -/
def initState : SysState := ⟨[], [], 0, [], false⟩

/-- One transition. A submit completes only if the buffered channel has
room (`cap`), otherwise the producer is still blocked and the state is
unchanged. A receive appends the point to the batch, increments the
counter and enters the write loop when the counter reaches `batchSize`
(the test `count < batchSize`, line 129). A tick enters the write loop
only on a non-empty batch (line 122). A successful write appends the
batch to `written`, installs a fresh batch and zero counter and returns
to the `select` (lines 143-149); a failed write changes nothing
(lines 138-141). -/
def sysStep (cap : Nat) (batchSize : Int) (s : SysState) : SysEvent → SysState
  | .submit p =>
      if s.queue.length < cap then { s with queue := s.queue ++ [p] } else s
  | .recv =>
      if s.flushing then s else
      match s.queue with
      | [] => s
      | p :: rest =>
          { s with queue := rest, bp := s.bp ++ [p], count := s.count + 1,
                   flushing := !((s.count + 1 : Int) < batchSize) }
  | .tick =>
      if s.flushing then s
      else if s.bp.isEmpty then s
      else { s with flushing := true }
  | .writeOk =>
      if s.flushing then
        { s with written := s.written ++ [s.bp], bp := [], count := 0, flushing := false }
      else s
  | .writeFail => s

/-- Run a sequence of events. -/
def sysRun (cap : Nat) (batchSize : Int) : SysState → List SysEvent → SysState
  | s, [] => s
  | s, e :: es => sysRun cap batchSize (sysStep cap batchSize s e) es

/-- The points accepted (actually placed on the queue) along a run, in
order. -/
def acceptedPts (cap : Nat) (batchSize : Int) : SysState → List SysEvent → List Point
  | _, [] => []
  | s, e :: es =>
      (match e with
       | .submit p => if s.queue.length < cap then [p] else []
       | _ => []) ++ acceptedPts cap batchSize (sysStep cap batchSize s e) es

/-- Every point currently held by the system, oldest first: written
batches, then the current batch, then the queue. -/
def holdings (s : SysState) : List Point :=
  s.written.flatten ++ s.bp ++ s.queue

/-- Events that drain a state to completion once the store accepts
writes: finish any pending write, move every queued point into batches
and write them, then flush the remainder on a tick. -/
def drainEvents (s : SysState) : List SysEvent :=
  SysEvent.writeOk ::
    ((List.replicate s.queue.length [SysEvent.recv, SysEvent.writeOk]).flatten ++
      [SysEvent.tick, SysEvent.writeOk])

/-! ### Target poller statistics (`main.go` lines 72-77, 305-325)

`snmpStats` is the per-target record; both the `errFn` mutation and the
snapshot copy in `gather` run entirely inside `m.Lock() … m.Unlock()` of
the same per-target mutex, so every concurrent execution is a
serialization of whole lock sections. A history is therefore a list of
atomic operations: completed `errFn` calls (`cycle`, carrying the
cycle's error and the clock value read for `time.Now()`) and snapshot
reads. -/

/-- Per-target statistics (`main.go` `snmpStats`): get and error
counters, last error and its time (Go zero values modelled as
`none`). -/
structure snmpStats where
  GetCnt : Nat
  ErrCnt : Nat
  LastError : Option String
  LastTime : Option Nat
deriving DecidableEq, Repr

/-- Zero value of `snmpStats` (`var stats snmpStats`). -/
def snmpStatsZero : snmpStats := ⟨0, 0, none, none⟩

/-- The body of `errFn` (`main.go` lines 308-318) as a state update: a nil
error increments only `GetCnt`; an error increments `ErrCnt` and records
the error and the current time, leaving `GetCnt` alone. -/
def errFnStep (e : Option String) (now : Nat) (s : snmpStats) : snmpStats :=
  match e with
  | none => { s with GetCnt := s.GetCnt + 1 }
  | some err => { s with ErrCnt := s.ErrCnt + 1, LastError := some err, LastTime := some now }

/-- One atomic lock section of a target's stats: a completed `errFn` call
or a snapshot read by the stats accessor. -/
inductive PollerOp where
  | cycle (e : Option String) (now : Nat)
  | snapshot
deriving DecidableEq, Repr

/-- Serialized execution of a history of lock sections: returns the final
stats and the list of values the snapshot reads returned, in order. -/
def runOps : snmpStats → List PollerOp → snmpStats × List snmpStats
  | s, [] => (s, [])
  | s, .cycle e t :: rest => runOps (errFnStep e t s) rest
  | s, .snapshot :: rest =>
      let r := runOps s rest
      (r.1, s :: r.2)

/-- The `errFn` calls of a history, in order. -/
def cyclesOf (ops : List PollerOp) : List (Option String × Nat) :=
  ops.filterMap fun op =>
    match op with
    | .cycle e t => some (e, t)
    | .snapshot => none

/-- All whole states the stats record passes through under a sequence of
`errFn` calls, starting state included. -/
def statesOf (s : snmpStats) : List (Option String × Nat) → List snmpStats
  | [] => [s]
  | (e, t) :: cs => s :: statesOf (errFnStep e t s) cs

/-! ### Stats registry (`main.go` lines 112, 268-282)

`statsMap` is a Go map from name to accessor, guarded by `sLock`;
`addStats` is a plain map assignment under the lock. The map is modelled
as an association list with one binding per key; assignment installs the
new binding and removes any previous one. -/

/-- Go map assignment `m[k] = v` on an association-list representation:
the binding for `k` becomes `v`, all other bindings are unchanged, and
there is exactly one binding for `k` afterwards. -/
def mapAssign {V : Type} (m : List (String × V)) (k : String) (v : V) :
    List (String × V) :=
  (k, v) :: m.filter fun p => !(p.1 == k)

/-- Go map lookup `m[k]`. -/
def mapLookup {V : Type} (m : List (String × V)) (k : String) : Option V :=
  (m.find? fun p => p.1 == k).map (·.2)

/-- A registered accessor: a zero-argument snapshot function
(`main.go` `statsFunc`). -/
def statsFunc : Type := Unit → snmpStats

/-- `addStats` (`main.go` lines 268-272): under `sLock`, assign the
accessor into `statsMap` — a total operation with no failure path. -/
def addStats (m : List (String × statsFunc)) (name : String)
    (fn : statsFunc) : List (String × statsFunc) :=
  mapAssign m name fn

/-! ### Poller startup (`main.go` lines 284-330)

`gather` validates the polling frequency before anything else: `if
crit.Freq < 1 { panic(...) }` precedes the sender wrappers, the stats
registration and the `snmp.Poller` call, so a non-positive frequency dies
before any poll is issued. -/

/-- Outcome of starting one target poller: whether it panicked at
validation, the stats-registry name it registered, and whether the
polling loop (`snmp.Poller`) was ever invoked. -/
structure GatherRun where
  panicked : Option String
  statsRegistered : Option String
  pollerRan : Bool
deriving DecidableEq, Repr

/-- `gather` startup path (`main.go` lines 284-326): panic with the host
name when `freq < 1`, before registering stats or polling; otherwise
register `"host/mibID"` and enter the polling loop. -/
def gather (freq : Int) (host mibID : String) : GatherRun :=
  if freq < 1 then
    ⟨some ("invalid polling frequency for: " ++ host), none, false⟩
  else
    ⟨none, some (host ++ "/" ++ mibID), true⟩

/-! ### Sample data used by witness theorems -/

/-- A sample point. -/
def samplePoint : Point := ⟨"ifInOctets", [("host", "sw1")], [("value", .intVal 3)], 5⟩

/-- A sample configuration naming database `snmp`. -/
def cfgSample : InfluxConfig := ⟨"localhost", 8086, "snmp", "", "", ""⟩

/-- A second sample configuration differing from `cfgSample` in every
field. -/
def cfgOther : InfluxConfig := ⟨"influx.example.net", 9999, "metrics", "admin", "pw", "30d"⟩

/-- A sample configuration with an empty database name. -/
def cfgNoDB : InfluxConfig := ⟨"localhost", 8086, "", "", "", ""⟩

/-- A healthy store whose database list contains `snmp`. -/
def envSample : StoreEnv := ⟨true, true, .ok [[[["_internal"], ["snmp"]]]], true⟩

/-- A store whose liveness probe fails. -/
def envPingFail : StoreEnv := ⟨true, false, .ok [[[["snmp"]]]], true⟩

/-! ### Theorems -/

/-- C1: when a batch write fails, the write loop reports the error, sleeps
the fixed 30-second cool-down and retries the very same batch, repeating
for every consecutive failure; only the first successful write replaces
the batch by a fresh empty one and resets the counter to zero — and while
no attempt has succeeded the loop is still holding the batch
(`writeLoop … = none`). For `n` failures followed by a success the
attempted batches are `n + 1` copies of the original batch, every error
is reported, and every failure is followed by a 30-second sleep. -/
theorem c1_retry_same_batch_until_success (bp : List Point) (errs : List String) :
    writeLoop bp (errs.map Option.some ++ [none]) =
      some ⟨List.replicate (errs.length + 1) bp, errs,
            List.replicate errs.length 30, [], 0⟩ ∧
    writeLoop bp (errs.map Option.some) = none := by
  induction errs with
  | nil => exact ⟨rfl, rfl⟩
  | cons e rest ih =>
      refine ⟨?_, ?_⟩
      · simp [writeLoop, ih.1, List.replicate_succ]
      · simp [writeLoop, ih.2]

/-- C2: over the events the running program can actually deliver to the
`select` (ticker fires and point arrivals — the manual flush channel has
no sender anywhere in the repository), an iteration falls through to the
flush exactly when the appended point makes the counter reach
`batchSize`, or when the ticker fires while the batch is non-empty; a
tick with an empty batch never flushes and a point arrival below the
threshold never flushes. -/
theorem c2_flush_trigger (k : Int) (s : LoopState) (ev : Event)
    (hcnt : (s.count : Int) < k)
    (hev : ev = Event.tick ∨ ∃ p, ev = Event.point p) :
    isFlush (selectStep k s ev) = true ↔
      (ev = Event.tick ∧ s.bp ≠ []) ∨
      (∃ p, ev = Event.point p ∧ (s.count : Int) + 1 = k) := by
  rcases hev with h | ⟨p, h⟩ <;> subst h
  · by_cases hb : s.bp = []
    · simp [selectStep, isFlush, hb]
    · simp [selectStep, isFlush, hb, List.length_eq_zero]
  · by_cases hlt : (s.count : Int) + 1 < k
    · have hne : (s.count : Int) + 1 ≠ k := ne_of_lt hlt
      simp [selectStep, isFlush, hlt, hne, Nat.cast_add]
    · have heq : (s.count : Int) + 1 = k := by omega
      simp [selectStep, isFlush, hlt, heq, Nat.cast_add]

/-- Witness for C2: with `batchSize = 2` and one point already counted,
the arrival of a point flushes, and the trigger characterization holds at
this concrete input. -/
theorem c2_flush_trigger_witness :
    isFlush (selectStep 2 ⟨[samplePoint], 1⟩ (Event.point samplePoint)) = true ↔
      ((Event.point samplePoint = Event.tick ∧ [samplePoint] ≠ []) ∨
       (∃ p, Event.point samplePoint = Event.point p ∧ ((1 : Nat) : Int) + 1 = 2)) :=
  c2_flush_trigger 2 ⟨[samplePoint], 1⟩ (Event.point samplePoint) (by norm_num)
    (Or.inr ⟨samplePoint, rfl⟩)

/-- C4: the returned `Sender` errs exactly when point construction errs;
on a construction error nothing is enqueued and the queue is unchanged;
on success the point is appended when the bounded channel has room, and a
full channel blocks the caller holding the point — no error, no drop. -/
theorem c4_submit_error_iff_construction_fails (cap : Nat) (q : List Point)
    (key : String) (tags : List (String × String))
    (fields : List (String × FieldValue)) (ts : Nat) :
    ((∃ e, submit cap q key tags fields ts = .fail e) ↔
      (∃ e, newPoint key tags fields ts = .error e)) ∧
    (∀ e, newPoint key tags fields ts = .error e →
      submit cap q key tags fields ts = .fail e ∧
      queueAfterSubmit cap q key tags fields ts = q) ∧
    (∀ pt, newPoint key tags fields ts = .ok pt →
      if q.length < cap then
        submit cap q key tags fields ts = .enqueued (q ++ [pt])
      else
        submit cap q key tags fields ts = .blocked pt ∧
        queueAfterSubmit cap q key tags fields ts = q) := by
  rcases hnp : newPoint key tags fields ts with e | pt
  · refine ⟨⟨fun _ => ⟨e, rfl⟩, fun _ => ⟨e, by simp [submit, hnp]⟩⟩, ?_, ?_⟩
    · intro e' he'
      simp only [Except.error.injEq] at he'
      subst he'
      exact ⟨by simp [submit, hnp], by simp [queueAfterSubmit, submit, hnp]⟩
    · intro pt hpt
      simp at hpt
  · refine ⟨⟨?_, ?_⟩, ?_, ?_⟩
    · rintro ⟨e, he⟩
      by_cases hlen : q.length < cap <;> simp [submit, hnp, hlen] at he
    · rintro ⟨e, he⟩
      simp at he
    · intro e he
      simp at he
    · intro pt' hpt'
      simp only [Except.ok.injEq] at hpt'
      subst hpt'
      by_cases hlen : q.length < cap
      · simp [submit, hnp, hlen]
      · simp [submit, queueAfterSubmit, hnp, hlen]

/-- Witness for C4: a point with a field value the store client rejects is
refused synchronously and the queue is unchanged. -/
theorem c4_submit_witness :
    submit 4 [samplePoint] "ifInOctets" [] [("value", FieldValue.unsupported "chan")] 7 =
      SubmitResult.fail "unsupported field value in point" ∧
    queueAfterSubmit 4 [samplePoint] "ifInOctets" []
      [("value", FieldValue.unsupported "chan")] 7 = [samplePoint] :=
  (c4_submit_error_iff_construction_fails 4 [samplePoint] "ifInOctets" []
      [("value", FieldValue.unsupported "chan")] 7).2.1
    "unsupported field value in point" (by rfl)

/-- Whether sender construction succeeded. -/
def senderOk (r : Except String SenderModel) : Bool :=
  match r with
  | .ok _ => true
  | .error _ => false

/-- Counterexample to C5: `NewSender` performs no default substitution —
with `batchSize = 0`, `queueSize = 0`, `period = 0` the resulting
sender's effective values are `0 / 0 / 0`, not the claimed
`4096 / 65535 / 10`. -/
theorem c5_defaults_counterexample :
    NewSender cfgSample envSample 0 0 0 =
      Except.ok ⟨(0 : Int), 0, 0⟩ ∧
    NewSender cfgSample envSample 0 0 0 ≠
      Except.ok ⟨(65535 : Int), 4096, 10⟩ := by
  refine ⟨by rfl, fun h => ?_⟩
  have h0 : NewSender cfgSample envSample 0 0 0 = Except.ok ⟨(0 : Int), 0, 0⟩ := rfl
  rw [h0] at h
  have h1 := congrArg SenderModel.queueCap (Except.ok.inj h)
  norm_num at h1

/-- C5 amended: `NewSender` uses the three size parameters verbatim — the
effective queue capacity, batch threshold and timer period of a
successfully constructed sender are exactly the supplied `queueSize`,
`batchSize` and `period`, with no substitution — and whether construction
succeeds never depends on those three values. -/
theorem c5_parameters_used_verbatim (cfg : InfluxConfig) (env : StoreEnv)
    (b q p b' q' p' : Int) :
    (∀ s, NewSender cfg env b q p = .ok s → s = ⟨q, b, p⟩) ∧
    senderOk (NewSender cfg env b q p) = senderOk (NewSender cfg env b' q' p') := by
  unfold NewSender
  constructor
  · intro s hs
    split at hs <;> [skip; split at hs] <;> [cases hs; cases hs; skip]
    split at hs <;> [cases hs; skip]
    split at hs <;> [cases hs; skip]
    cases hs
    rfl
  · split <;> [rfl; split] <;> [rfl; skip]
    split <;> [rfl; skip]
    split <;> rfl

/-- Witness for C5 amended: at the sample configuration the sender built
from sizes `0 / 0 / 0` carries exactly those values, and its construction
succeeds exactly as it does with sizes `4096 / 65535 / 10`. -/
theorem c5_parameters_used_verbatim_witness :
    (⟨(0 : Int), 0, 0⟩ : SenderModel) = ⟨0, 0, 0⟩ ∧
    senderOk (NewSender cfgSample envSample 0 0 0) =
      senderOk (NewSender cfgSample envSample 4096 65535 10) :=
  ⟨(c5_parameters_used_verbatim cfgSample envSample 0 0 0 4096 65535 10).1
      ⟨0, 0, 0⟩ (by rfl),
   (c5_parameters_used_verbatim cfgSample envSample 0 0 0 4096 65535 10).2⟩

/-- C6: sender construction checks, synchronously and in order, that the
database name is non-empty, that the store answers the liveness probe,
and that the configured database appears in the store's database list,
returning the descriptive error of the first failed check; a sender
value exists only when all checks pass, so no point can be submitted
before construction succeeds. -/
theorem c6_construction_checks (cfg : InfluxConfig) (env : StoreEnv) (b q p : Int) :
    (cfg.DB.length = 0 → NewSender cfg env b q p = .error "no database specified") ∧
    (cfg.DB.length ≠ 0 → Connect cfg env = false →
      NewSender cfg env b q p = .error ("failed connecting to: " ++ cfg.Host)) ∧
    (cfg.DB.length ≠ 0 → Connect cfg env = true →
      databaseExists cfg.DB env = false →
      NewSender cfg env b q p = .error ("database " ++ cfg.DB ++ " does not exist")) ∧
    (∀ s, NewSender cfg env b q p = .ok s →
      cfg.DB.length ≠ 0 ∧ Connect cfg env = true ∧
      databaseExists cfg.DB env = true) := by
  refine ⟨fun h => by simp [NewSender, h], fun h hc => by simp [NewSender, h, hc],
    fun h hc hd => by simp [NewSender, h, hc, hd], fun s hs => ?_⟩
  by_cases h : cfg.DB.length = 0
  · simp [NewSender, h] at hs
  · by_cases hc : Connect cfg env
    · by_cases hd : databaseExists cfg.DB env
      · exact ⟨h, hc, hd⟩
      · simp [NewSender, h, hc, hd] at hs
    · simp [NewSender, h, Bool.eq_false_iff.mpr hc] at hs

/-- Witness for C6: an empty database name fails construction with the
descriptive error. -/
theorem c6_construction_checks_witness :
    NewSender cfgNoDB envSample 1 1 1 = .error "no database specified" :=
  (c6_construction_checks cfgNoDB envSample 1 1 1).1 (by rfl)

/-- C8: the poller validates the configured frequency before anything
else — with `freq < 1` it dies carrying the host name, with no stats
registered and the polling loop never entered; the polling loop runs
exactly when the frequency is positive. -/
theorem c8_frequency_validated_before_polling (freq : Int) (host mibID : String) :
    ((gather freq host mibID).pollerRan = true ↔ 1 ≤ freq) ∧
    (freq < 1 →
      gather freq host mibID =
        ⟨some ("invalid polling frequency for: " ++ host), none, false⟩) := by
  unfold gather
  by_cases h : freq < 1 <;> (simp [h]; try omega)

/-- Witness for C8: frequency `0` is fatal at startup for host `sw1`. -/
theorem c8_frequency_validated_witness :
    gather 0 "sw1" "ifTable" =
      ⟨some ("invalid polling frequency for: " ++ "sw1"), none, false⟩ :=
  (c8_frequency_validated_before_polling 0 "sw1" "ifTable").2 (by norm_num)

/-- Counterexample to C9: the probe timeout is the same in-code constant
`10` seconds for two configurations that differ in every field — it is
not taken from the supplied configuration (which has no timeout field at
all). -/
theorem c9_timeout_counterexample :
    cfgSample ≠ cfgOther ∧
    connectPingTimeoutSeconds cfgSample = 10 ∧
    connectPingTimeoutSeconds cfgOther = 10 :=
  ⟨by decide, rfl, rfl⟩

/-- C9 amended: the construction-time connectivity probe uses the fixed
10-second timeout written in `Connect` (not a configuration value), and
construction fails with the connection error whenever the probe fails. -/
theorem c9_fixed_probe_timeout (cfg : InfluxConfig) (env : StoreEnv) (b q p : Int)
    (hdb : cfg.DB.length ≠ 0) (hping : env.pingOk = false) :
    connectPingTimeoutSeconds cfg = 10 ∧
    NewSender cfg env b q p = .error ("failed connecting to: " ++ cfg.Host) := by
  refine ⟨rfl, ?_⟩
  simp [NewSender, hdb, Connect, hping]

/-- Witness for C9 amended: at the sample configuration with a failing
probe, construction fails with the connection error and the probe timeout
is the constant `10`. -/
theorem c9_fixed_probe_timeout_witness :
    connectPingTimeoutSeconds cfgSample = 10 ∧
    NewSender cfgSample envPingFail 1 1 1 =
      .error ("failed connecting to: " ++ cfgSample.Host) :=
  c9_fixed_probe_timeout cfgSample envPingFail 1 1 1 (by decide) (by rfl)

/-- Every state list produced by `statesOf` starts with its starting
state. -/
theorem statesOf_self_mem (s : snmpStats) :
    ∀ cs : List (Option String × Nat), s ∈ statesOf s cs := by
  intro cs
  cases cs with
  | nil => simp [statesOf]
  | cons c rest => cases c; simp [statesOf]

/-- Snapshots returned along any serialized history are whole states the
record passed through. -/
theorem runOps_snaps_subset (ops : List PollerOp) :
    ∀ s : snmpStats, (runOps s ops).2 ⊆ statesOf s (cyclesOf ops) := by
  induction ops with
  | nil => intro s; simp [runOps]
  | cons op rest ih =>
      intro s
      cases op with
      | cycle e t =>
          simp only [runOps, cyclesOf, List.filterMap_cons, statesOf]
          exact (ih (errFnStep e t s)).trans (List.subset_cons_self _ _)
      | snapshot =>
          simp only [runOps, cyclesOf, List.filterMap_cons]
          exact List.cons_subset.mpr ⟨statesOf_self_mem s _, ih s⟩

/-- C7: because both the `errFn` mutation and the accessor's copy run
under the same per-target mutex, every concurrent execution serializes
into a history of whole lock sections; every snapshot such a history
returns is one whole prior value of the stats record — never a mix of
pre- and post-update fields — and each cycle's effect is exactly as the
claim states: a successful cycle increments only `GetCnt`, a failed cycle
increments `ErrCnt` and records the error and its time, leaving `GetCnt`
unchanged. -/
theorem c7_snapshot_whole_prior_state (init : snmpStats) (ops : List PollerOp) :
    (runOps init ops).2 ⊆ statesOf init (cyclesOf ops) ∧
    (∀ t s, errFnStep none t s = { s with GetCnt := s.GetCnt + 1 }) ∧
    (∀ e t s, errFnStep (some e) t s =
      { s with ErrCnt := s.ErrCnt + 1, LastError := some e, LastTime := some t }) :=
  ⟨runOps_snaps_subset ops init, fun _ _ => rfl, fun _ _ _ => rfl⟩

/-- A sample history: a successful cycle, a snapshot, a failed cycle, a
snapshot. -/
def opsSample : List PollerOp :=
  [PollerOp.cycle none 5, PollerOp.snapshot,
   PollerOp.cycle (some "timeout") 7, PollerOp.snapshot]

/-- Witness for C7: in the sample history the first snapshot returns the
whole state after the successful cycle, which is among the states the
record passed through. -/
theorem c7_snapshot_whole_prior_state_witness :
    (⟨1, 0, none, none⟩ : snmpStats) ∈ statesOf snmpStatsZero (cyclesOf opsSample) :=
  (c7_snapshot_whole_prior_state snmpStatsZero opsSample).1 (by decide)

/-- Looking up the key just assigned returns the assigned value. -/
theorem mapLookup_mapAssign_self {V : Type} (m : List (String × V))
    (k : String) (v : V) : mapLookup (mapAssign m k v) k = some v := by
  simp [mapLookup, mapAssign, List.find?_cons]

/-- Assigning one key leaves lookups of every other key unchanged. -/
theorem mapLookup_mapAssign_other {V : Type} (m : List (String × V))
    (k k' : String) (v : V) (h : k' ≠ k) :
    mapLookup (mapAssign m k v) k' = mapLookup m k' := by
  have hk : (k == k') = false := by
    simp only [beq_eq_false_iff_ne]
    exact fun hh => h hh.symm
  simp only [mapLookup, mapAssign, List.find?_cons, hk]
  congr 1
  induction m with
  | nil => rfl
  | cons p rest ih =>
      by_cases hp : p.1 == k
      · have hp1 : p.1 = k := by simpa using hp
        have hp' : (p.1 == k') = false := by
          simp only [beq_eq_false_iff_ne]
          intro hh
          exact h (by rw [← hh]; exact hp1)
        simp [List.find?_cons, List.filter_cons, hp, hp', ih]
      · simp only [List.filter_cons, hp, Bool.not_false]
        simp only [List.find?_cons]
        cases hfind : (p.1 == k') <;> simp [hfind, ih]

/-- After an assignment there is exactly one binding for the assigned
key. -/
theorem mapAssign_countP_one {V : Type} (m : List (String × V))
    (k : String) (v : V) :
    ((mapAssign m k v).countP fun p => p.1 == k) = 1 := by
  simp only [mapAssign, List.countP_cons, beq_self_eq_true, if_pos]
  have hz : ((m.filter fun p => !(p.1 == k)).countP fun p => p.1 == k) = 0 := by
    apply List.countP_eq_zero.mpr
    intro a ha
    have := List.of_mem_filter ha
    simpa using this
  simp [hz]

/-- C10: registering an accessor under an already-present name silently
replaces the previous one — `addStats` is a total map assignment under
the registry lock with no failure path — leaving exactly one binding for
the name and all other names untouched, and after two registrations under
the same name only the later accessor is exposed. -/
theorem c10_addStats_last_registration_wins (m : List (String × statsFunc))
    (name other : String) (f f2 : statsFunc) (hne : other ≠ name) :
    mapLookup (addStats m name f) name = some f ∧
    ((addStats m name f).countP fun p => p.1 == name) = 1 ∧
    mapLookup (addStats m name f) other = mapLookup m other ∧
    mapLookup (addStats (addStats m name f) name f2) name = some f2 :=
  ⟨mapLookup_mapAssign_self m name f,
   mapAssign_countP_one m name f,
   mapLookup_mapAssign_other m name other f hne,
   mapLookup_mapAssign_self (addStats m name f) name f2⟩

/-- An accessor returning the zero stats record. -/
def fnA : statsFunc := fun _ => snmpStatsZero

/-- An accessor returning one successful get. -/
def fnB : statsFunc := fun _ => ⟨1, 0, none, none⟩

/-- Witness for C10: registering `fnA` then `fnB` under `"sw1/ifTable"`
exposes only `fnB`, with exactly one binding, and leaves a different name
alone. -/
theorem c10_addStats_last_registration_wins_witness :
    mapLookup (addStats [] "sw1/ifTable" fnA) "sw1/ifTable" = some fnA ∧
    ((addStats [] "sw1/ifTable" fnA).countP fun p => p.1 == "sw1/ifTable") = 1 ∧
    mapLookup (addStats [] "sw1/ifTable" fnA) "sw2/ifTable" =
      mapLookup ([] : List (String × statsFunc)) "sw2/ifTable" ∧
    mapLookup (addStats (addStats [] "sw1/ifTable" fnA) "sw1/ifTable" fnB)
      "sw1/ifTable" = some fnB :=
  c10_addStats_last_registration_wins [] "sw1/ifTable" "sw2/ifTable" fnA fnB
    (by decide)

/-- One transition conserves the held points, extending them exactly by a
newly accepted submit. -/
theorem sysStep_holdings (cap : Nat) (k : Int) (s : SysState) (e : SysEvent) :
    holdings (sysStep cap k s e) =
      holdings s ++
        (match e with
         | .submit p => if s.queue.length < cap then [p] else []
         | _ => []) := by
  cases e with
  | submit p =>
      by_cases hlen : s.queue.length < cap <;> simp [sysStep, holdings, hlen]
  | recv =>
      by_cases hf : s.flushing
      · simp [sysStep, holdings, hf]
      · cases hq : s.queue with
        | nil => simp [sysStep, holdings, hf, hq]
        | cons p rest => simp [sysStep, holdings, hf, hq]
  | tick =>
      by_cases hf : s.flushing
      · simp [sysStep, holdings, hf]
      · by_cases hb : s.bp.isEmpty <;> simp [sysStep, holdings, hf, hb]
  | writeOk =>
      by_cases hf : s.flushing <;> simp [sysStep, holdings, hf, List.flatten_append]
  | writeFail => simp [sysStep, holdings]

/-- Running events appends exactly the accepted points to the held
points. -/
theorem sysRun_holdings (cap : Nat) (k : Int) (evs : List SysEvent) :
    ∀ s : SysState,
      holdings (sysRun cap k s evs) = holdings s ++ acceptedPts cap k s evs := by
  induction evs with
  | nil => intro s; simp [sysRun, acceptedPts]
  | cons e es ih =>
      intro s
      simp only [sysRun, acceptedPts]
      rw [ih (sysStep cap k s e), sysStep_holdings, List.append_assoc]

/-- Events that contain no submit accept no points. -/
theorem acceptedPts_no_submit (cap : Nat) (k : Int) (evs : List SysEvent)
    (h : evs.all (fun e => e.isSubmit == false) = true) :
    ∀ s, acceptedPts cap k s evs = [] := by
  induction evs with
  | nil => intro s; rfl
  | cons e es ih =>
      intro s
      simp only [List.all_cons, Bool.and_eq_true] at h
      cases e with
      | submit p => simp [SysEvent.isSubmit] at h
      | recv => simp [acceptedPts, ih h.2]
      | tick => simp [acceptedPts, ih h.2]
      | writeOk => simp [acceptedPts, ih h.2]
      | writeFail => simp [acceptedPts, ih h.2]

/-- Running concatenated event lists runs them in sequence. -/
theorem sysRun_append (cap : Nat) (k : Int) (a b : List SysEvent) :
    ∀ s, sysRun cap k s (a ++ b) = sysRun cap k (sysRun cap k s a) b := by
  induction a with
  | nil => intro s; rfl
  | cons e es ih =>
      intro s
      simp only [List.cons_append, sysRun]
      exact ih _

/-- Accepted points over concatenated event lists. -/
theorem acceptedPts_append (cap : Nat) (k : Int) (a b : List SysEvent) :
    ∀ s, acceptedPts cap k s (a ++ b) =
      acceptedPts cap k s a ++ acceptedPts cap k (sysRun cap k s a) b := by
  induction a with
  | nil => intro s; simp [acceptedPts, sysRun]
  | cons e es ih =>
      intro s
      simp only [List.cons_append, acceptedPts, sysRun, List.append_eq]
      rw [ih (sysStep cap k s e), List.append_assoc]

/-- A write outcome leaves the goroutine outside the write loop and the
queue untouched. -/
theorem sysStep_writeOk_state (cap : Nat) (k : Int) (s : SysState) :
    (sysStep cap k s .writeOk).flushing = false ∧
    (sysStep cap k s .writeOk).queue = s.queue := by
  by_cases hf : s.flushing <;> simp [sysStep, hf]

/-- One receive-then-write pair starting at the select: the head of the
queue (if any) moves into the batch, a threshold-triggered write is
completed, and the goroutine is back at the select. -/
theorem sysStep_pair (cap : Nat) (k : Int) (s : SysState) (hf : s.flushing = false) :
    (sysStep cap k (sysStep cap k s .recv) .writeOk).flushing = false ∧
    (sysStep cap k (sysStep cap k s .recv) .writeOk).queue = s.queue.tail := by
  cases hq : s.queue with
  | nil =>
      have h1 : sysStep cap k s .recv = s := by simp [sysStep, hf, hq]
      rw [h1]
      rcases sysStep_writeOk_state cap k s with ⟨h2, h3⟩
      exact ⟨h2, by simp [h3, hq]⟩
  | cons p rest =>
      have h1 : sysStep cap k s .recv =
          { s with queue := rest, bp := s.bp ++ [p], count := s.count + 1,
                   flushing := !((s.count + 1 : Int) < k) } := by
        simp [sysStep, hf, hq]
      rw [h1]
      rcases sysStep_writeOk_state cap k _ with ⟨h2, h3⟩
      exact ⟨h2, by simp [h3, hq]⟩

/-- Enough receive/write pairs empty the queue and end at the select. -/
theorem sysRun_pass (cap : Nat) (k : Int) :
    ∀ (n : Nat) (s : SysState), s.flushing = false → s.queue.length ≤ n →
      (sysRun cap k s
        ((List.replicate n [SysEvent.recv, SysEvent.writeOk]).flatten)).flushing = false ∧
      (sysRun cap k s
        ((List.replicate n [SysEvent.recv, SysEvent.writeOk]).flatten)).queue = [] := by
  intro n
  induction n with
  | zero =>
      intro s hf hq
      simp only [List.replicate, List.flatten_nil, sysRun]
      exact ⟨hf, List.length_eq_zero.mp (Nat.le_zero.mp hq)⟩
  | succ n ih =>
      intro s hf hq
      have hflat : (List.replicate (n + 1) [SysEvent.recv, SysEvent.writeOk]).flatten =
          SysEvent.recv :: SysEvent.writeOk ::
            (List.replicate n [SysEvent.recv, SysEvent.writeOk]).flatten := by
        simp [List.replicate_succ]
      rw [hflat]
      simp only [sysRun]
      rcases sysStep_pair cap k s hf with ⟨h1, h2⟩
      apply ih
      · exact h1
      · rw [h2, List.length_tail]
        omega

/-- After `drainEvents`, the queue and the batch are empty. -/
theorem sysRun_drain (cap : Nat) (k : Int) (s : SysState) :
    (sysRun cap k s (drainEvents s)).queue = [] ∧
    (sysRun cap k s (drainEvents s)).bp = [] := by
  unfold drainEvents
  simp only [sysRun]
  rcases sysStep_writeOk_state cap k s with ⟨hf0, hq0⟩
  rw [sysRun_append]
  rcases sysRun_pass cap k s.queue.length (sysStep cap k s .writeOk) hf0
      (by rw [hq0]) with ⟨hf3, hq3⟩
  simp only [sysRun]
  by_cases hb :
      (sysRun cap k (sysStep cap k s .writeOk)
        ((List.replicate s.queue.length [SysEvent.recv, SysEvent.writeOk]).flatten)).bp.isEmpty
  · rw [show ∀ t : SysState, t.flushing = false → t.bp.isEmpty = true →
        sysStep cap k t .tick = t from fun t h1 h2 => by simp [sysStep, h1, h2]]
    · rw [show ∀ t : SysState, t.flushing = false →
          sysStep cap k t .writeOk = t from fun t h1 => by simp [sysStep, h1]]
      · exact ⟨hq3, by simpa using hb⟩
      · exact hf3
    · exact hf3
    · exact hb
  · rw [show ∀ t : SysState, t.flushing = false → t.bp.isEmpty = false →
        sysStep cap k t .tick = { t with flushing := true } from
        fun t h1 h2 => by simp [sysStep, h1, h2]]
    · rw [show ∀ t : SysState,
          sysStep cap k { t with flushing := true } .writeOk =
            { t with written := t.written ++ [t.bp], bp := [], count := 0,
                     flushing := false } from fun t => by simp [sysStep]]
      exact ⟨hq3, rfl⟩
    · exact hf3
    · exact Bool.not_eq_true _ ▸ (by simpa using hb)

/-- The draining events contain no submit. -/
theorem drainEvents_no_submit (s : SysState) :
    (drainEvents s).all (fun e => e.isSubmit == false) = true := by
  have hpass : ∀ n : Nat,
      ((List.replicate n [SysEvent.recv, SysEvent.writeOk]).flatten).all
        (fun e => e.isSubmit == false) = true := by
    intro n
    induction n with
    | zero => rfl
    | succ m ih =>
        simp only [List.replicate_succ, List.flatten_cons, List.all_append,
          List.all_cons, List.all_nil, Bool.and_eq_true]
        exact ⟨⟨rfl, rfl, trivial⟩, ih⟩
  simp [drainEvents, SysEvent.isSubmit, hpass s.queue.length]

/-- C3: along every finite interleaving of completed submits, channel
receives, ticks and write outcomes, the accepted points are conserved:
they are exactly the written batches followed by the current batch
followed by the queue, in order, so no step removes a point without
writing it. Moreover from any reached state there is a continuation with
no further submits — the store granting one success per attempt — after
which queue and batch are empty and the written batches hold exactly the
accepted points: every accepted point is eventually delivered. -/
theorem c3_no_point_loss (cap : Nat) (k : Int) (evs : List SysEvent) :
    holdings (sysRun cap k initState evs) = acceptedPts cap k initState evs ∧
    ∃ ds : List SysEvent,
      ds.all (fun e => e.isSubmit == false) = true ∧
      (sysRun cap k initState (evs ++ ds)).queue = [] ∧
      (sysRun cap k initState (evs ++ ds)).bp = [] ∧
      (sysRun cap k initState (evs ++ ds)).written.flatten =
        acceptedPts cap k initState evs := by
  have hcons : holdings (sysRun cap k initState evs) =
      acceptedPts cap k initState evs := by
    simpa [holdings, initState] using sysRun_holdings cap k evs initState
  obtain ⟨hq, hb⟩ := sysRun_drain cap k (sysRun cap k initState evs)
  refine ⟨hcons, drainEvents (sysRun cap k initState evs),
    drainEvents_no_submit _, ?_, ?_, ?_⟩
  · rw [sysRun_append]
    exact hq
  · rw [sysRun_append]
    exact hb
  · rw [sysRun_append]
    have h2 : holdings (sysRun cap k (sysRun cap k initState evs)
        (drainEvents (sysRun cap k initState evs))) =
        acceptedPts cap k initState evs := by
      rw [← sysRun_append]
      have h3 := sysRun_holdings cap k
        (evs ++ drainEvents (sysRun cap k initState evs)) initState
      rw [acceptedPts_append cap k evs (drainEvents (sysRun cap k initState evs))
          initState,
        acceptedPts_no_submit cap k _ (drainEvents_no_submit _)] at h3
      simpa [initState, holdings] using h3
    simp only [holdings] at h2
    rw [hq, hb] at h2
    simpa using h2

end Influxsnmp
